import Mathlib

/-!
Verification of the multi-source insurance data pipeline.

Shallow embedding of the core functions of the repository:
- `src/insurance/calculator.py` (`calcular_premio`) and the identical
  computational core of `src/app/calculator.py` (`calcular_premio_atuarial`);
- `src/app/data_manager.py` (`combine_tables`, `get_combined_casco_data`);
- `src/analises/auxiliary_data_analyzer.py` (accident / theft / population
  statistics and `get_integrated_risk_profile`);
- `src/genai/llm_context.py` (`extract_intent`, `get_relevant_data`).

Numeric cells are modelled as exact rationals; Python `round` (half-even)
is modelled by `pyRound`.
-/

namespace Seguros

/-! ## String utilities (Python `in`, `str.title`, `str.strip`, ...) -/

/-- Does the character list start with the given pattern? -/
def charsBegin : List Char → List Char → Bool
  | [], _ => true
  | _ :: _, [] => false
  | p :: ps, x :: xs => p == x && charsBegin ps xs

/-- Is `pat` a contiguous sub-list of the character list?  (Python `in`.) -/
def charsIn (pat : List Char) : List Char → Bool
  | [] => pat.isEmpty
  | x :: xs => charsBegin pat (x :: xs) || charsIn pat xs

/-- Python substring test `pat in s`. -/
def containsStr (s pat : String) : Bool :=
  charsIn pat.toList s.toList

/-- Python `str.upper()` (ASCII letters). -/
def strUpper (s : String) : String :=
  ⟨s.toList.map Char.toUpper⟩

/-- Python `str.lower()` (ASCII letters). -/
def strLower (s : String) : String :=
  ⟨s.toList.map Char.toLower⟩

/-- Python `str.strip()`. -/
def strTrim (s : String) : String :=
  ⟨((s.toList.dropWhile Char.isWhitespace).reverse.dropWhile Char.isWhitespace).reverse⟩

/-- Decimal digit fold (used to model Python `int` on well-formed digit
strings). -/
def parseNatDigits : List Char → ℕ → ℕ
  | [], acc => acc
  | c :: cs, acc => parseNatDigits cs (acc * 10 + (c.toNat - 48))

/-- Python `int(s)` on a well-formed (optionally negated) digit string. -/
def parseIntStr (s : String) : ℤ :=
  match s.toList with
  | '-' :: cs => -(parseNatDigits cs 0 : ℤ)
  | cs => (parseNatDigits cs 0 : ℤ)

/-- Python `str.title()` over the ASCII letters: a letter that does not follow
a letter is upper-cased, a letter following a letter is lower-cased. -/
def pyTitleAux : Bool → List Char → List Char
  | _, [] => []
  | prevAlpha, c :: cs =>
    let c2 := if c.isAlpha then (if prevAlpha then c.toLower else c.toUpper) else c
    c2 :: pyTitleAux c.isAlpha cs

/-- Python `str.title()`. -/
def pyTitle (s : String) : String :=
  ⟨pyTitleAux false s.toList⟩

/-- Unique values in first-occurrence order (pandas `Series.unique`). -/
def uniqueFirstAux (seen : List String) : List String → List String
  | [] => []
  | x :: xs =>
    if seen.contains x then uniqueFirstAux seen xs
    else x :: uniqueFirstAux (x :: seen) xs

/-- Unique values in first-occurrence order. -/
def uniqueFirst (xs : List String) : List String :=
  uniqueFirstAux [] xs

/-- Stable insertion keeping counts in descending order. -/
def insertByCount (p : String × ℕ) : List (String × ℕ) → List (String × ℕ)
  | [] => [p]
  | q :: qs => if q.2 < p.2 then p :: q :: qs else q :: insertByCount p qs

/-- Stable sort by count, descending. -/
def sortByCountDesc : List (String × ℕ) → List (String × ℕ)
  | [] => []
  | p :: ps => insertByCount p (sortByCountDesc ps)

/-- pandas `value_counts`: pairs (value, multiplicity) ordered by decreasing
count (ties kept in first-occurrence order). -/
def valueCounts (xs : List String) : List (String × ℕ) :=
  sortByCountDesc ((uniqueFirst xs).map (fun v => (v, xs.count v)))

/-! ## Exact rounding (Python `round`, half-to-even) -/

/-- Floor of a rational as an integer. -/
def ratFloor (q : ℚ) : ℤ :=
  Int.fdiv q.num q.den

/-- Round a rational to the nearest integer, ties to even (Python `round`). -/
def roundHalfEven (q : ℚ) : ℤ :=
  let f := ratFloor q
  let frac := q - (f : ℚ)
  if frac < 1/2 then f
  else if 1/2 < frac then f + 1
  else if f % 2 = 0 then f else f + 1

/-- Python `round(q, n)` on exact rationals. -/
def pyRound (q : ℚ) (n : ℕ) : ℚ :=
  (roundHalfEven (q * (10 : ℚ) ^ n) : ℚ) / (10 : ℚ) ^ n

/-- Arithmetic mean of a list of rationals, `0` for the empty list.
(This is the claim-side notion of "mean of all matching columns".) -/
def listMean (xs : List ℚ) : ℚ :=
  if xs.isEmpty then 0 else xs.sum / xs.length

/-! ## Policy data model

A row of a (combined) casco policy table.  The selection columns are strings;
the numeric columns (`premio1`, the `freq_sin*` and `indeniz*` families, ...)
live in the association list `nums`; `periodo` / `semestre` are the columns
added by the combiner. -/

structure Row where
  modelo : String
  faixa_desc : String
  regiao_desc : String
  periodo : Option String := none
  semestre : Option ℤ := none
  nums : List (String × ℚ) := []
deriving DecidableEq, Inhabited

/-- A rectangular dataset: the list of numeric column names plus the rows. -/
structure DataFrame where
  numCols : List String := []
  rows : List Row := []
deriving DecidableEq, Inhabited

/-- `registro.get(c, 0)` on the numeric part of a row. -/
def rowGet (r : Row) (c : String) : ℚ :=
  ((r.nums.find? (fun p => p.1 == c)).map (fun p => p.2)).getD 0

/-! ## Actuarial calculator (`src/insurance/calculator.py` lines 3-78 and the
identical core of `calcular_premio_atuarial`, `src/app/calculator.py`
lines 191-292) -/

/-- `df[df["modelo"] == modelo]` (calculator.py line 10 / 201). -/
def filtroModelo (df : DataFrame) (modelo : String) : List Row :=
  df.rows.filter (fun r => r.modelo == modelo)

/-- The scope surviving the age-band step: restrict by `faixa_desc`, falling
back to the model scope when the restriction is empty (lines 19-21 / 206-208). -/
def faixaScope (df : DataFrame) (modelo faixa_desc : String) : List Row :=
  let df_modelo := filtroModelo df modelo
  let df_faixa := df_modelo.filter (fun r => r.faixa_desc == faixa_desc)
  if df_faixa.isEmpty then df_modelo else df_faixa

/-- The cascading fallback selection `model → age-band → region`
(lines 9-26 / 200-213): each restriction falls back to its parent scope
when it empties the set. -/
def selecao (df : DataFrame) (modelo faixa_desc regiao_desc : String) : List Row :=
  let df_faixa := faixaScope df modelo faixa_desc
  let df_regiao := df_faixa.filter (fun r => r.regiao_desc == regiao_desc)
  if df_regiao.isEmpty then df_faixa else df_regiao

/-- The Matched Record: `df_regiao.iloc[0]` (line 28 / 215). -/
def registroSelecionado (df : DataFrame) (modelo faixa_desc regiao_desc : String) : Row :=
  (selecao df modelo faixa_desc regiao_desc).headD default

/-- Columns of the full dataset whose name contains `"freq_sin"` (line 35 / 219). -/
def freqCols (df : DataFrame) : List String :=
  df.numCols.filter (fun c => containsStr c "freq_sin")

/-- Columns of the full dataset whose name contains `"indeniz"` (line 36 / 220). -/
def indenCols (df : DataFrame) : List String :=
  df.numCols.filter (fun c => containsStr c "indeniz")

/-- `frequencia_media` (lines 38, 42 / 222, 225): the sum of the matched
record's claim-frequency cells divided by the number of such columns,
`0` when there are none. -/
def frequenciaMedia (df : DataFrame) (registro : Row) : ℚ :=
  let cols := freqCols df
  let total := (cols.map (fun c => rowGet registro c)).sum
  if cols.isEmpty then 0 else total / cols.length

/-- `severidade_media` (lines 39, 43 / 223, 226). -/
def severidadeMedia (df : DataFrame) (registro : Row) : ℚ :=
  let cols := indenCols df
  let total := (cols.map (fun c => rowGet registro c)).sum
  if cols.isEmpty then 0 else total / cols.length

/-- The pre-adjustment premium (lines 32, 45-49 / 216, 228-231): the matched
record's historical premium, overridden by `frequency * severity` when both
are strictly positive. -/
def premioPuro (df : DataFrame) (registro : Row) : ℚ :=
  let premio_hist := rowGet registro "premio1"
  let f := frequenciaMedia df registro
  let s := severidadeMedia df registro
  if 0 < f ∧ 0 < s then f * s else premio_hist

/-- The multiplicative adjustments, applied in source order
(lines 51-65 / 233-246): age-of-vehicle clamp, sex factor, region factor. -/
def aplicarAjustes (premio : ℚ) (ano : ℤ) (sexo regiao_desc : String) : ℚ :=
  let fator_idade := max ((7 : ℚ)/10) (min ((12 : ℚ)/10) (((2025 - ano : ℤ) : ℚ) * (1/100) + 9/10))
  let p1 := premio * fator_idade
  let p2 := if sexo == "M" then p1 * (11/10)
            else if sexo == "F" then p1 * (97/100) else p1
  let p3 := if containsStr regiao_desc "SP" then p2 * (115/100)
            else if containsStr regiao_desc "RJ" then p2 * (122/100) else p2
  p3

/-- The successful result dictionary of `calcular_premio` (lines 67-78). -/
structure Resultado where
  modelo : String := ""
  ano : ℤ := 0
  sexo : String := ""
  regiao : String := ""
  faixa : String := ""
  premio_estimado : ℚ := 0
  premio_historico : ℚ := 0
  frequencia : ℚ := 0
  severidade : ℚ := 0
deriving DecidableEq, Inhabited

/-- The result of the estimator: either the error dictionary
`{"erro": True, "mensagem": ...}` or the success dictionary. -/
inductive CalcResult where
  | err (mensagem : String)
  | ok (r : Resultado)
deriving DecidableEq, Inhabited

/-- The `erro` flag of the result dictionary. -/
def CalcResult.erro : CalcResult → Bool
  | .err _ => true
  | .ok _ => false

/-- The success payload (junk default on the error branch). -/
def CalcResult.okD : CalcResult → Resultado
  | .err _ => default
  | .ok r => r

/-- `calcular_premio(df, modelo, ano, sexo, regiao_desc, faixa_desc)`
(`src/insurance/calculator.py` lines 3-78), assembled from the helpers
above in source order. -/
def calcular_premio (df : DataFrame) (modelo : String) (ano : ℤ)
    (sexo regiao_desc faixa_desc : String) : CalcResult :=
  if (filtroModelo df modelo).isEmpty then
    .err ("Não encontrei registros para o modelo " ++ modelo ++ ".")
  else
    let registro := registroSelecionado df modelo faixa_desc regiao_desc
    .ok { modelo := modelo, ano := ano, sexo := sexo,
          regiao := regiao_desc, faixa := faixa_desc,
          premio_estimado := pyRound (aplicarAjustes (premioPuro df registro) ano sexo regiao_desc) 2,
          premio_historico := pyRound (rowGet registro "premio1") 2,
          frequencia := pyRound (frequenciaMedia df registro) 6,
          severidade := pyRound (severidadeMedia df registro) 2 }

/-- The result dictionary of `calcular_premio_atuarial`
(`src/app/calculator.py` lines 276-292).  The UI-enrichment entries
(`contexto_adicional`, `stats_comparativas`, `perfil_risco`), which are
produced by separate components behind try/except and are not part of the
estimate itself, are not modelled here. -/
structure AtuarialResult where
  erro : Bool
  mensagem : String := ""
  modelo : String := ""
  ano : ℤ := 0
  sexo : String := ""
  regiao : String := ""
  faixa : String := ""
  premio_estimado : ℚ := 0
  premio_historico : ℚ := 0
  frequencia : ℚ := 0
  severidade : ℚ := 0
  registro_utilizado : List Row := []
  periodo_dados : String := ""
deriving DecidableEq, Inhabited

/-- `calcular_premio_atuarial` computational core (`src/app/calculator.py`
lines 191-292): the same cascade and premium arithmetic applied to the
combined view `df`, additionally returning the surviving scope
(`registro_utilizado`) and the matched record's period tag. -/
def calcular_premio_atuarial (df : DataFrame) (modelo : String) (ano : ℤ)
    (sexo regiao_desc faixa_desc : String) : AtuarialResult :=
  if (filtroModelo df modelo).isEmpty then
    { erro := true,
      mensagem := "Modelo " ++ modelo ++ " não encontrado em nossa base de dados." }
  else
    let df_regiao := selecao df modelo faixa_desc regiao_desc
    let registro := df_regiao.headD default
    { erro := false, modelo := modelo, ano := ano, sexo := sexo,
      regiao := regiao_desc, faixa := faixa_desc,
      premio_estimado := pyRound (aplicarAjustes (premioPuro df registro) ano sexo regiao_desc) 2,
      premio_historico := pyRound (rowGet registro "premio1") 2,
      frequencia := pyRound (frequenciaMedia df registro) 6,
      severidade := pyRound (severidadeMedia df registro) 2,
      registro_utilizado := df_regiao,
      periodo_dados := registro.periodo.getD "Não especificado" }

/-! ## Data manager (`src/app/data_manager.py`) -/

/-- Union of column-name lists in order of first appearance (as pandas
`concat` unions schemas). -/
def unionCols (a b : List String) : List String :=
  a ++ b.filter (fun c => !a.contains c)

/-- The period/half tagging of `combine_tables` (lines 179-188): a table
whose logical name contains `"sem1"` is stamped half 1, `"sem2"` half 2,
anything else is stamped with its own name and its position + 1. -/
def tagPeriodo (name : String) (i : ℕ) (r : Row) : Row :=
  if containsStr name "sem1" then
    { r with periodo := some "1º Semestre 2019", semestre := some 1 }
  else if containsStr name "sem2" then
    { r with periodo := some "2º Semestre 2019", semestre := some 2 }
  else
    { r with periodo := some name, semestre := some ((i : ℤ) + 1) }

/-- The row-wise body of `combine_tables`: each table's rows, optionally
tagged, concatenated in listed order. -/
def combineRowsAux (add_period_column : Bool) : ℕ → List (String × DataFrame) → List Row
  | _, [] => []
  | i, (name, df) :: rest =>
    (if add_period_column then df.rows.map (tagPeriodo name i) else df.rows)
      ++ combineRowsAux add_period_column (i + 1) rest

/-- `DataManager.combine_tables(table_names, add_period_column)`
(lines 172-194), taking each named table's materialized data as input. -/
def combine_tables (tables : List (String × DataFrame)) (add_period_column : Bool) : DataFrame :=
  { numCols := tables.foldl (fun acc t => unionCols acc t.2.numCols) [],
    rows := combineRowsAux add_period_column 0 tables }

/-- Tag a whole table with a fixed period label and half index
(`get_combined_casco_data`, lines 215-221 and 235-237). -/
def tagSem (periodo : String) (sem : ℤ) (df : DataFrame) : DataFrame :=
  { df with rows := df.rows.map (fun r => { r with periodo := some periodo, semestre := some sem }) }

/-- The empty DataFrame (`pd.DataFrame()`). -/
def emptyDF : DataFrame := {}

/-- The state of the data manager relevant to `get_combined_casco_data`:
the (idempotent, memoized) outcome of loading each half-year table, and the
`"casco_combined"` cache slot. -/
structure DMState where
  loadSem1 : Except String DataFrame
  loadSem2 : Except String DataFrame
  cascoCombined : Option DataFrame := none

/-- `DataManager.get_combined_casco_data()` (lines 196-244): returns the
cached combined view when present; otherwise loads and tags both halves and
caches their concatenation; if that raises, falls back to the first half
alone (tagged as half 1, also cached); if the first half also fails, returns
an empty frame without caching. -/
def get_combined_casco_data (st : DMState) : DataFrame × DMState :=
  match st.cascoCombined with
  | some df => (df, st)
  | none =>
    match st.loadSem1, st.loadSem2 with
    | .ok d1, .ok d2 =>
      let comb : DataFrame :=
        { numCols := unionCols d1.numCols d2.numCols,
          rows := (tagSem "1º Semestre 2019" 1 d1).rows ++ (tagSem "2º Semestre 2019" 2 d2).rows }
      (comb, { st with cascoCombined := some comb })
    | .ok d1, .error _ =>
      let df := tagSem "1º Semestre 2019" 1 d1
      (df, { st with cascoCombined := some df })
    | .error _, _ => (emptyDF, st)

/-! ## Auxiliary data analyzer (`src/analises/auxiliary_data_analyzer.py`) -/

/-- A row of the `acidentes_2019` table. -/
structure AccidentRow where
  uf : String
  causa_acidente : String
  tipo_acidente : String
  marca : String
  tipo_envolvido : String
  sexo : String
  idade : Option ℚ := none
deriving DecidableEq, Inhabited

/-- The dictionary returned by `get_accident_stats_by_brand` (lines 68-77);
on the not-found branch only `encontrado` and `marca` are populated. -/
structure AccidentStats where
  encontrado : Bool
  marca : String := ""
  total_acidentes : ℕ := 0
  causas_principais : List (String × ℕ) := []
  tipos_acidentes : List (String × ℕ) := []
  estados_maior_incidencia : List (String × ℕ) := []
  idade_media_condutor : Option ℚ := none
  distribuicao_sexo : List (String × ℕ) := []
deriving DecidableEq, Inhabited

/-- `get_accident_stats_by_brand(marca)` (lines 30-77): case-insensitive
partial match on the brand column; top-5 causes, types and states over all
matching rows; mean driver age and driver-sex distribution over the rows
whose `tipo_envolvido` is `"Condutor"` (NaN ages skipped, `None` when no
age is present). -/
def get_accident_stats_by_brand (acDF : List AccidentRow) (marca : String) : AccidentStats :=
  let marca_upper := strUpper marca
  let df_marca := acDF.filter (fun r => containsStr (strUpper r.marca) marca_upper)
  if df_marca.isEmpty then { encontrado := false, marca := marca }
  else
    let condutores := df_marca.filter (fun r => r.tipo_envolvido == "Condutor")
    let idades := condutores.filterMap (fun r => r.idade)
    { encontrado := true
      marca := marca
      total_acidentes := df_marca.length
      causas_principais := (valueCounts (df_marca.map (fun r => r.causa_acidente))).take 5
      tipos_acidentes := (valueCounts (df_marca.map (fun r => r.tipo_acidente))).take 5
      estados_maior_incidencia := (valueCounts (df_marca.map (fun r => r.uf))).take 5
      idade_media_condutor :=
        if idades.isEmpty then none else some (pyRound (idades.sum / idades.length) 1)
      distribuicao_sexo := valueCounts (condutores.map (fun r => r.sexo)) }

/-- The dictionary returned by `get_accident_stats_by_state` (lines 79-99). -/
structure AccidentStateStats where
  encontrado : Bool
  uf : String := ""
  nome_estado : String := ""
  total_acidentes : ℕ := 0
  causas_principais : List (String × ℕ) := []
  tipos_acidentes : List (String × ℕ) := []
  marcas_mais_envolvidas : List (String × ℕ) := []
deriving DecidableEq, Inhabited

/-- The analyzer's state code → state name table (`_mapa_estados`, lines 15-24). -/
def mapaEstados : List (String × String) :=
  [("SP", "São Paulo"), ("RJ", "Rio de Janeiro"), ("MG", "Minas Gerais"),
   ("RS", "Rio Grande do Sul"), ("PR", "Paraná"), ("SC", "Santa Catarina"),
   ("BA", "Bahia"), ("CE", "Ceará"), ("PE", "Pernambuco"), ("AL", "Alagoas"),
   ("GO", "Goiás"), ("DF", "Distrito Federal"), ("ES", "Espírito Santo"),
   ("PA", "Pará"), ("AM", "Amazonas"), ("MA", "Maranhão"), ("MT", "Mato Grosso"),
   ("MS", "Mato Grosso do Sul"), ("RO", "Rondônia"), ("AC", "Acre"),
   ("AP", "Amapá"), ("RR", "Roraima"), ("TO", "Tocantins"), ("SE", "Sergipe"),
   ("PI", "Piauí"), ("RN", "Rio Grande do Norte"), ("PB", "Paraíba")]

/-- `_mapa_estados.get(uf)`. -/
def lookupEstado (uf : String) : Option String :=
  (mapaEstados.find? (fun p => p.1 == uf)).map (fun p => p.2)

/-- `get_accident_stats_by_state(uf)` (lines 79-99): exact match on the
upper-cased two-letter code. -/
def get_accident_stats_by_state (acDF : List AccidentRow) (uf : String) : AccidentStateStats :=
  let uf_upper := strUpper uf
  let df_estado := acDF.filter (fun r => r.uf == uf_upper)
  if df_estado.isEmpty then { encontrado := false, uf := uf }
  else
    { encontrado := true
      uf := uf_upper
      nome_estado := (lookupEstado uf_upper).getD uf_upper
      total_acidentes := df_estado.length
      causas_principais := (valueCounts (df_estado.map (fun r => r.causa_acidente))).take 5
      tipos_acidentes := (valueCounts (df_estado.map (fun r => r.tipo_acidente))).take 5
      marcas_mais_envolvidas := (valueCounts (df_estado.map (fun r => r.marca))).take 10 }

/-- A row of the `seguranca_publica` crime table (fixed 5-column layout;
`ano` is stored as a string, `quantidade` cast to int by the analyzer). -/
structure CrimeRow where
  estado : String
  tipo_crime : String
  ano : String
  mes : String
  quantidade : ℤ
deriving DecidableEq, Inhabited

/-- The dictionary returned by `get_theft_stats_by_state` (lines 162-172). -/
structure TheftStats where
  encontrado : Bool
  estado : String := ""
  ano : String := ""
  total_roubos : ℤ := 0
  total_furtos : ℤ := 0
  media_mensal_roubos : Option ℚ := none
  media_mensal_furtos : Option ℚ := none
  mes_maior_roubo : Option String := none
  mes_maior_furto : Option String := none
deriving DecidableEq, Inhabited

/-- Python truthiness of the optional year argument (`if ano:`). -/
def anoTruthy : Option ℤ → Bool
  | none => false
  | some y => y != 0

/-- `idxmax` then `.loc[..., "mes"]`: the month of the first row holding the
maximal `quantidade`, `None` on an empty frame. -/
def argmaxMesGo (best : CrimeRow) : List CrimeRow → CrimeRow
  | [] => best
  | r :: rs => if best.quantidade < r.quantidade then argmaxMesGo r rs else argmaxMesGo best rs

/-- Month of peak incidence (first occurrence of the maximum). -/
def argmaxMes : List CrimeRow → Option String
  | [] => none
  | r :: rs => some (argmaxMesGo r rs).mes

/-- `get_theft_stats_by_state(estado, ano)` (lines 141-172): found/not-found
is decided by the normalized state-name match alone; the optional year filter
is applied afterwards; rows are split into robbery/theft by substring match
on `tipo_crime`; sums of an empty selection are 0 and means/peaks are `None`. -/
def get_theft_stats_by_state (segDF : List CrimeRow) (estado : String) (ano : Option ℤ) : TheftStats :=
  let estado_norm := pyTitle (strTrim estado)
  let df_estado := segDF.filter (fun r => pyTitle (strTrim r.estado) == estado_norm)
  if df_estado.isEmpty then { encontrado := false, estado := estado }
  else
    let df_estado2 :=
      if anoTruthy ano then df_estado.filter (fun r => r.ano == toString (ano.getD 0)) else df_estado
    let df_roubo := df_estado2.filter (fun r => containsStr r.tipo_crime "Roubo")
    let df_furto := df_estado2.filter (fun r => containsStr r.tipo_crime "Furto")
    { encontrado := true
      estado := estado_norm
      ano := if anoTruthy ano then toString (ano.getD 0) else "Todos"
      total_roubos := (df_roubo.map (fun r => r.quantidade)).sum
      total_furtos := (df_furto.map (fun r => r.quantidade)).sum
      media_mensal_roubos :=
        if df_roubo.isEmpty then none
        else some (((df_roubo.map (fun r => r.quantidade)).sum : ℚ) / df_roubo.length)
      media_mensal_furtos :=
        if df_furto.isEmpty then none
        else some (((df_furto.map (fun r => r.quantidade)).sum : ℚ) / df_furto.length)
      mes_maior_roubo := argmaxMes df_roubo
      mes_maior_furto := argmaxMes df_furto }

/-- A population cell: either a thousands-separated string or a number
(the analyzer tolerates both, lines 230-233). -/
inductive PCell where
  | s (v : String)
  | n (v : ℤ)
deriving DecidableEq

/-- `int(v.replace(",", ""))` when the cell is a string, the number itself
otherwise. -/
def parseCell : PCell → ℤ
  | .s v => parseIntStr ⟨v.toList.filter (fun c => !(c == ','))⟩
  | .n v => v

/-- A row of the `projecoes_populacao` table.  `popJovem`, `popAdulta`,
`popIdosa` model the `15-17_T`, `18-21_T`, `60+_T` columns. -/
structure PopRow where
  SIGLA : String
  ANO : String
  LOCAL : String
  POP_T : PCell
  popJovem : PCell
  popAdulta : PCell
  popIdosa : PCell
deriving DecidableEq

/-- The dictionary returned by `get_population_by_state` (lines 235-246). -/
structure PopStats where
  encontrado : Bool
  localName : String := ""
  sigla : String := ""
  ano : ℤ := 0
  populacao_total : ℤ := 0
  populacao_jovem_15_17 : ℤ := 0
  populacao_adulta_18_21 : ℤ := 0
  populacao_idosa_60plus : ℤ := 0
  proporcao_jovens : ℚ := 0
  proporcao_idosos : ℚ := 0
deriving DecidableEq, Inhabited

/-- `get_population_by_state(sigla, ano)` (lines 210-246): exact match on the
upper-cased code and the year rendered as a string; takes the first matching
row; percentage shares guarded by a positive total. -/
def get_population_by_state (popDF : List PopRow) (sigla : String) (ano : ℤ) : PopStats :=
  let sigla_upper := strUpper sigla
  let df_estado := popDF.filter (fun r => r.SIGLA == sigla_upper && r.ANO == toString ano)
  match df_estado with
  | [] => { encontrado := false, sigla := sigla, ano := ano }
  | row :: _ =>
    let pop_total := parseCell row.POP_T
    let pop_jovem := parseCell row.popJovem
    let pop_adulta := parseCell row.popAdulta
    let pop_idosa := parseCell row.popIdosa
    { encontrado := true
      localName := row.LOCAL
      sigla := sigla_upper
      ano := ano
      populacao_total := pop_total
      populacao_jovem_15_17 := pop_jovem
      populacao_adulta_18_21 := pop_adulta
      populacao_idosa_60plus := pop_idosa
      proporcao_jovens := if 0 < pop_total then (pop_jovem : ℚ) / (pop_total : ℚ) * 100 else 0
      proporcao_idosos := if 0 < pop_total then (pop_idosa : ℚ) / (pop_total : ℚ) * 100 else 0 }

/-! ## Integrated risk profile (lines 282-348) -/

/-- Brand extraction from the model string (line 287): the text before `"/"`
when present, otherwise the first whitespace-delimited token. -/
def extrairMarca (modelo : String) : String :=
  if containsStr modelo "/" then ⟨modelo.toList.takeWhile (fun c => !(c == '/'))⟩
  else ⟨(modelo.toList.dropWhile Char.isWhitespace).takeWhile (fun c => !c.isWhitespace)⟩

/-- The accident-count bonus of the risk score (lines 303-310). -/
def bonusAcidentes (st : AccidentStats) : ℤ :=
  if st.encontrado then
    if 1000 < st.total_acidentes then 15
    else if 500 < st.total_acidentes then 10
    else if 100 < st.total_acidentes then 5
    else 0
  else 0

/-- The combined theft-total bonus of the risk score (lines 312-320). -/
def bonusSeguranca (st : TheftStats) : ℤ :=
  if st.encontrado then
    let total_crimes := st.total_roubos + st.total_furtos
    if 10000 < total_crimes then 20
    else if 5000 < total_crimes then 15
    else if 1000 < total_crimes then 10
    else 0
  else 0

/-- The youth-share bonus of the risk score (lines 322-325). -/
def bonusDemografia (st : PopStats) : ℤ :=
  if st.encontrado then (if 5 < st.proporcao_jovens then 5 else 0) else 0

/-- `_generate_recommendation` (lines 341-348). -/
def generateRecommendation (risk_score : ℤ) : String :=
  if 70 < risk_score then
    "Recomendado: Cobertura completa incluindo roubo/furto e assistência 24h"
  else if 40 < risk_score then
    "Recomendado: Cobertura intermediária com proteção contra roubo"
  else "Recomendado: Cobertura básica pode ser suficiente"

/-- The dictionary returned by `get_integrated_risk_profile` (lines 329-339). -/
structure RiskProfile where
  modelo : String
  uf : String
  estado : String
  risk_score : ℤ
  nivel_risco : String
  dados_acidentes : AccidentStats
  dados_seguranca : TheftStats
  dados_demografia : PopStats
  recomendacao : String
deriving DecidableEq

/-- `get_integrated_risk_profile(modelo, uf)` (lines 282-339) over the three
auxiliary tables.  (The source also computes `get_accident_stats_by_state(uf)`
at line 291 and discards it; that dead computation is omitted.)  The score
starts at 50, adds the three non-negative bonuses and is capped at 100. -/
def get_integrated_risk_profile (acDF : List AccidentRow) (segDF : List CrimeRow)
    (popDF : List PopRow) (modelo uf : String) : RiskProfile :=
  let marca := extrairMarca modelo
  let accident_stats := get_accident_stats_by_brand acDF marca
  let estado_nome := (lookupEstado (strUpper uf)).getD uf
  let theft_stats := get_theft_stats_by_state segDF estado_nome (some 2019)
  let pop_stats := get_population_by_state popDF uf 2025
  let risk_score :=
    min 100 (50 + bonusAcidentes accident_stats + bonusSeguranca theft_stats
               + bonusDemografia pop_stats)
  { modelo := modelo
    uf := uf
    estado := estado_nome
    risk_score := risk_score
    nivel_risco := if 70 < risk_score then "Alto" else if 40 < risk_score then "Médio" else "Baixo"
    dados_acidentes := accident_stats
    dados_seguranca := theft_stats
    dados_demografia := pop_stats
    recomendacao := generateRecommendation risk_score }

/-! ## Context enricher (`src/genai/llm_context.py`) -/

/-- The intent dictionary built by `extract_intent` (lines 24-29):
`entities` can hold a `"modelo"` key (set by the model loop) and an
`"estado_mencionado"` key (read by `get_relevant_data` but never set by
`extract_intent`). -/
structure Intent where
  needs_data : Bool
  tables_needed : List String
  modelo_entidade : Option String := none
  estado_entidade : Option String := none
  query_type : String
deriving DecidableEq, Inhabited

/-- The model-detection loop of `extract_intent` (lines 32-37): for each
known model whose lower-cased name occurs in the message, record it as the
entity (later matches overwrite earlier ones), set `needs_data` and append
`"casco"` to `tables_needed`. -/
def detectModelos (ml : String) : List String → Intent → Intent
  | [], it => it
  | m :: ms, it =>
    detectModelos ml ms
      (if containsStr ml (strLower m) then
        { it with modelo_entidade := some m, needs_data := true,
                  tables_needed := it.tables_needed ++ ["casco"] }
       else it)

/-- `LLMContextEnricher.extract_intent(user_message)` (lines 17-55), with the
known model list (from `get_unique_values("casco", "modelo")`) passed in. -/
def extract_intent (modelos : List String) (user_message : String) : Intent :=
  let ml := strLower user_message
  let i0 : Intent := { needs_data := false, tables_needed := [], query_type := "general" }
  let i1 := detectModelos ml modelos i0
  let i2 :=
    if ["região", "regiao", "sp", "rj", "mg"].any (fun w => containsStr ml w) then
      { i1 with needs_data := true, tables_needed := i1.tables_needed ++ ["casco"] }
    else i1
  let i3 :=
    if ["prêmio", "premio", "preço", "preco", "valor", "custo"].any (fun w => containsStr ml w) then
      { i2 with query_type := "pricing", needs_data := true,
                tables_needed := i2.tables_needed ++ ["casco"] }
    else i2
  let i4 :=
    if ["sinistro", "acidente", "colisão", "roubo"].any (fun w => containsStr ml w) then
      { i3 with query_type := "claims", needs_data := true }
    else i3
  i4

/-- The data bundle assembled by `get_relevant_data` (lines 57-110), keyed by
the dictionary entries the source may populate. -/
structure DataBundle where
  casco_filtered : Option (List Row) := none
  casco_sem1 : Option (List Row) := none
  casco_sem2 : Option (List Row) := none
  casco_sample : Option (List Row) := none
  acidentes_info : Option AccidentStats := none
  seguranca_info : Option TheftStats := none
deriving DecidableEq, Inhabited

/-- The keyword → state-name map of the `seguranca` branch (lines 98-103). -/
def estadoMapEnricher (keyword : String) : String :=
  if keyword == "sp" then "São Paulo"
  else if keyword == "são paulo" then "São Paulo"
  else if keyword == "rj" then "Rio de Janeiro"
  else if keyword == "rio de janeiro" then "Rio de Janeiro"
  else if keyword == "mg" then "Minas Gerais"
  else if keyword == "minas" then "Minas Gerais"
  else pyTitle keyword

/-- `LLMContextEnricher.get_relevant_data(intent)` (lines 57-110).
`sampler` stands for `DataFrame.sample` (the source draws a random sample;
the embedding abstracts the draw as a function of the rows and the size
`min(10, len(df))`).  `combined` is the combined casco view, `acDF` / `segDF`
the auxiliary tables behind the analyzer. -/
def get_relevant_data (sampler : List Row → ℕ → List Row) (combined : DataFrame)
    (acDF : List AccidentRow) (segDF : List CrimeRow) (intent : Intent) : DataBundle :=
  if !intent.needs_data then {}
  else
    let b0 : DataBundle := {}
    let b1 :=
      if intent.tables_needed.contains "casco" then
        match intent.modelo_entidade with
        | some modelo =>
          let df_filtered := combined.rows.filter (fun r => r.modelo == modelo)
          { b0 with
            casco_filtered := some df_filtered,
            casco_sem1 := some (df_filtered.filter (fun r => r.semestre == some 1)),
            casco_sem2 := some (df_filtered.filter (fun r => r.semestre == some 2)) }
        | none =>
          { b0 with casco_sample := some (sampler combined.rows (min 10 combined.rows.length)) }
      else b0
    let b2 :=
      if intent.tables_needed.contains "acidentes" then
        match intent.modelo_entidade with
        | some modelo =>
          let marca := extrairMarca modelo
          let accident_stats := get_accident_stats_by_brand acDF marca
          if accident_stats.encontrado then { b1 with acidentes_info := some accident_stats }
          else b1
        | none => b1
      else b1
    let b3 :=
      if intent.tables_needed.contains "seguranca" then
        match intent.estado_entidade with
        | some keyword =>
          let estado := estadoMapEnricher keyword
          let theft_stats := get_theft_stats_by_state segDF estado (some 2019)
          if theft_stats.encontrado then { b2 with seguranca_info := some theft_stats }
          else b2
        | none => b2
      else b2
    b3

/-! ## Claim-side definitions

These follow the wording of the spec sentences under check and are compared
against the embedded source functions. -/

/-- Claim C3: the age-of-vehicle factor `clamp(0.7, 1.2, (2025 - year) * 0.01 + 0.9)`. -/
def fatorIdadeSpec (ano : ℤ) : ℚ :=
  max ((7 : ℚ)/10) (min ((12 : ℚ)/10) (((2025 - ano : ℤ) : ℚ) * (1/100) + 9/10))

/-- Claim C3: the sex factor (male 1.10, female 0.97, otherwise 1). -/
def fatorSexoSpec (sexo : String) : ℚ :=
  if sexo == "M" then 11/10 else if sexo == "F" then 97/100 else 1

/-- Claim C3: the region factor (descriptor containing "SP" 1.15, containing
"RJ" 1.22, otherwise 1). -/
def fatorRegiaoSpec (regiao_desc : String) : ℚ :=
  if containsStr regiao_desc "SP" then 115/100
  else if containsStr regiao_desc "RJ" then 122/100 else 1

/-- Claim C5: the cascade with the age-band criterion omitted entirely
(model scope, then the region restriction with its fallback). -/
def selecaoSemFaixa (df : DataFrame) (modelo regiao_desc : String) : List Row :=
  let df_modelo := filtroModelo df modelo
  let df_regiao := df_modelo.filter (fun r => r.regiao_desc == regiao_desc)
  if df_regiao.isEmpty then df_modelo else df_regiao

/-- Claim C5: the cascade with the region criterion omitted entirely
(model scope, then the age-band restriction with its fallback). -/
def selecaoSemRegiao (df : DataFrame) (modelo faixa_desc : String) : List Row :=
  let df_modelo := filtroModelo df modelo
  let df_faixa := df_modelo.filter (fun r => r.faixa_desc == faixa_desc)
  if df_faixa.isEmpty then df_modelo else df_faixa

/-- Claim C8: the accident rows matching the brand (case-insensitive partial
match), as in `auxiliary_data_analyzer.py` lines 40-42. -/
def marcaRows (acDF : List AccidentRow) (marca : String) : List AccidentRow :=
  acDF.filter (fun r => containsStr (strUpper r.marca) (strUpper marca))

/-- Claim C8: the brand rows whose involved-party role is `"Condutor"`. -/
def condutorRows (acDF : List AccidentRow) (marca : String) : List AccidentRow :=
  (marcaRows acDF marca).filter (fun r => r.tipo_envolvido == "Condutor")

/-- Claim C8 as worded: the top-5 causes computed only over driver rows. -/
def causasSomenteCondutor (acDF : List AccidentRow) (marca : String) : List (String × ℕ) :=
  (valueCounts ((condutorRows acDF marca).map (fun r => r.causa_acidente))).take 5

/-! ## Concrete example data (used by witnesses and counterexamples) -/

/-- A one-row combined policy view for the C3/C4 witnesses. -/
def exDF3 : DataFrame :=
  { numCols := ["premio1", "freq_sin1", "indeniz1"],
    rows := [{ modelo := "CIVIC", faixa_desc := "25-30", regiao_desc := "SP - Capital",
               periodo := some "1º Semestre 2019", semestre := some 1,
               nums := [("premio1", 1000), ("freq_sin1", 1/20), ("indeniz1", 30000)] }] }

/-- The success payload of the C3 witness query. -/
def resC3 : Resultado :=
  (calcular_premio exDF3 "CIVIC" 2023 "M" "SP - Capital" "25-30").okD

/-- The success payload of the C4 witness query. -/
def resC4 : Resultado :=
  (calcular_premio exDF3 "CIVIC" 2020 "F" "Interior" "18-24").okD

/-- A one-row combined policy view for the C5 witness. -/
def exDF5 : DataFrame :=
  { numCols := ["premio1"],
    rows := [{ modelo := "GOL", faixa_desc := "18-24", regiao_desc := "RJ - Capital",
               nums := [("premio1", 800)] }] }

/-- A small table for the C7 witness. -/
def exDF7 : DataFrame :=
  { numCols := ["premio1"],
    rows := [{ modelo := "UNO", faixa_desc := "25-30", regiao_desc := "SP",
               nums := [("premio1", 500)] }] }

/-- Accident rows for the C8 counterexample: the brand has one passenger row
and one driver row with different causes. -/
def exAcc8 : List AccidentRow :=
  [{ uf := "SP", causa_acidente := "Defeito Mecanico", tipo_acidente := "Colisao Traseira",
     marca := "FIAT UNO", tipo_envolvido := "Passageiro", sexo := "F", idade := some 30 },
   { uf := "RJ", causa_acidente := "Ingestao De Alcool", tipo_acidente := "Capotamento",
     marca := "FIAT UNO", tipo_envolvido := "Condutor", sexo := "M", idade := some 40 }]

/-- Combined view for the C9 counterexample/witness. -/
def exDF9 : DataFrame :=
  { numCols := ["premio1"],
    rows := [{ modelo := "CIVIC", faixa_desc := "25-30", regiao_desc := "SP",
               periodo := some "1º Semestre 2019", semestre := some 1,
               nums := [("premio1", 1500)] }] }

/-- Accident rows for the C9 counterexample: brand statistics for the model's
brand do exist in the accident table. -/
def exAcc9 : List AccidentRow :=
  [{ uf := "SP", causa_acidente := "Falta De Atencao", tipo_acidente := "Colisao",
     marca := "CIVIC", tipo_envolvido := "Condutor", sexo := "M", idade := some 35 }]

/-- A deterministic instantiation of the sample draw (takes the first rows). -/
def takeSampler (rows : List Row) (n : ℕ) : List Row := rows.take n

/-- Crime rows for the C10 witness: the state is present, but only for 2018. -/
def exSeg10 : List CrimeRow :=
  [{ estado := "Pernambuco", tipo_crime := "Roubo De Veiculo", ano := "2018",
     mes := "Janeiro", quantidade := 7 },
   { estado := "Pernambuco", tipo_crime := "Furto De Veiculo", ano := "2018",
     mes := "Marco", quantidade := 4 }]

/-! ## Helper lemmas -/

/-- The sequentially applied adjustments equal the product of the three
claim-side factors. -/
theorem aplicarAjustes_eq (p : ℚ) (ano : ℤ) (sexo regiao_desc : String) :
    aplicarAjustes p ano sexo regiao_desc
      = p * fatorIdadeSpec ano * fatorSexoSpec sexo * fatorRegiaoSpec regiao_desc := by
  unfold aplicarAjustes fatorIdadeSpec fatorSexoSpec fatorRegiaoSpec
  split_ifs <;> ring

/-- The code's guarded sum/length computation is the claim-side mean of the
record's claim-frequency cells. -/
theorem frequenciaMedia_eq (df : DataFrame) (reg : Row) :
    frequenciaMedia df reg = listMean ((freqCols df).map (fun c => rowGet reg c)) := by
  unfold frequenciaMedia listMean
  cases h : freqCols df <;> simp [h]

/-- The code's guarded sum/length computation is the claim-side mean of the
record's indemnity cells. -/
theorem severidadeMedia_eq (df : DataFrame) (reg : Row) :
    severidadeMedia df reg = listMean ((indenCols df).map (fun c => rowGet reg c)) := by
  unfold severidadeMedia listMean
  cases h : indenCols df <;> simp [h]

theorem bonusAcidentes_bounds (st : AccidentStats) :
    0 ≤ bonusAcidentes st ∧ bonusAcidentes st ≤ 15 := by
  unfold bonusAcidentes
  split_ifs <;> omega

theorem bonusSeguranca_bounds (st : TheftStats) :
    0 ≤ bonusSeguranca st ∧ bonusSeguranca st ≤ 20 := by
  simp only [bonusSeguranca]
  split_ifs <;> omega

theorem bonusDemografia_bounds (st : PopStats) :
    0 ≤ bonusDemografia st ∧ bonusDemografia st ≤ 5 := by
  unfold bonusDemografia
  split_ifs <;> omega

/-- When the model scope is non-empty the estimator succeeds, returning its
own success payload. -/
theorem calcular_premio_eq_ok (df : DataFrame) (modelo : String) (ano : ℤ)
    (sexo regiao_desc faixa_desc : String)
    (h : (filtroModelo df modelo).isEmpty = false) :
    calcular_premio df modelo ano sexo regiao_desc faixa_desc
      = .ok ((calcular_premio df modelo ano sexo regiao_desc faixa_desc).okD) := by
  unfold calcular_premio
  simp [h, CalcResult.okD]

/-- Length of the combiner body: each table contributes exactly its rows. -/
theorem combineRowsAux_length (b : Bool) (ts : List (String × DataFrame)) :
    ∀ i, (combineRowsAux b i ts).length = (ts.map (fun t => t.2.rows.length)).sum := by
  induction ts with
  | nil => intro i; simp [combineRowsAux]
  | cons hd tl ih =>
    intro i
    obtain ⟨name, df⟩ := hd
    simp only [combineRowsAux, List.length_append, ih (i + 1), List.map_cons, List.sum_cons]
    split <;> simp

/-! ## Claims -/

/-- C1: for every combined dataset and query, the estimator returns the
error dictionary (erro = True, model not found) exactly when no row of the
dataset has that model; any non-empty model scope yields a successful
estimate, regardless of the age-band and region restrictions. -/
theorem C1_erro_sse_modelo_ausente (df : DataFrame) (modelo : String) (ano : ℤ)
    (sexo regiao_desc faixa_desc : String) :
    (calcular_premio df modelo ano sexo regiao_desc faixa_desc).erro = true
      ↔ filtroModelo df modelo = [] := by
  unfold calcular_premio
  by_cases h : (filtroModelo df modelo).isEmpty
  · simp [h, CalcResult.erro, List.isEmpty_iff.mp h]
  · simp only [h, Bool.false_eq_true, if_false, CalcResult.erro]
    constructor
    · intro hc; cases hc
    · intro hc; exact absurd (by simp [hc]) h

/-- C1 witness: a model absent from the concrete table fails with the error
flag set. -/
theorem C1_erro_sse_modelo_ausente_witness :
    (calcular_premio exDF5 "FUSCA" 2020 "M" "RJ - Capital" "18-24").erro = true :=
  (C1_erro_sse_modelo_ausente exDF5 "FUSCA" 2020 "M" "RJ - Capital" "18-24").mpr (by decide)

/-- C2: for every input, the integrated risk score lies between 50 and 100:
the base is 50, all bonuses are non-negative, and the sum is capped at 100. -/
theorem C2_limites_do_score (acDF : List AccidentRow) (segDF : List CrimeRow)
    (popDF : List PopRow) (modelo uf : String) :
    50 ≤ (get_integrated_risk_profile acDF segDF popDF modelo uf).risk_score ∧
    (get_integrated_risk_profile acDF segDF popDF modelo uf).risk_score ≤ 100 := by
  have h1 := bonusAcidentes_bounds (get_accident_stats_by_brand acDF (extrairMarca modelo))
  have h2 := bonusSeguranca_bounds
    (get_theft_stats_by_state segDF ((lookupEstado (strUpper uf)).getD uf) (some 2019))
  have h3 := bonusDemografia_bounds (get_population_by_state popDF uf 2025)
  have hs : (get_integrated_risk_profile acDF segDF popDF modelo uf).risk_score
      = min 100 (50 + bonusAcidentes (get_accident_stats_by_brand acDF (extrairMarca modelo))
          + bonusSeguranca
              (get_theft_stats_by_state segDF ((lookupEstado (strUpper uf)).getD uf) (some 2019))
          + bonusDemografia (get_population_by_state popDF uf 2025)) := rfl
  rw [hs]
  constructor <;> omega

/-- C3: every successful estimate's premium is the pre-adjustment premium
multiplied by exactly the three claim-side factors (age clamp, sex, region),
at the output precision of two decimal places. -/
theorem C3_premio_tres_fatores (df : DataFrame) (modelo : String) (ano : ℤ)
    (sexo regiao_desc faixa_desc : String) (r : Resultado)
    (h : calcular_premio df modelo ano sexo regiao_desc faixa_desc = .ok r) :
    r.premio_estimado
      = pyRound (premioPuro df (registroSelecionado df modelo faixa_desc regiao_desc)
          * fatorIdadeSpec ano * fatorSexoSpec sexo * fatorRegiaoSpec regiao_desc) 2 := by
  unfold calcular_premio at h
  by_cases hm : (filtroModelo df modelo).isEmpty
  · simp [hm] at h
  · simp only [hm, Bool.false_eq_true, if_false, CalcResult.ok.injEq] at h
    subst h
    simp [aplicarAjustes_eq]

/-- C3 witness: a concrete successful query whose premium is the rounded
triple product. -/
theorem C3_premio_tres_fatores_witness :
    resC3.premio_estimado
      = pyRound (premioPuro exDF3 (registroSelecionado exDF3 "CIVIC" "25-30" "SP - Capital")
          * fatorIdadeSpec 2023 * fatorSexoSpec "M" * fatorRegiaoSpec "SP - Capital") 2 :=
  C3_premio_tres_fatores exDF3 "CIVIC" 2023 "M" "SP - Capital" "25-30" resC3
    (calcular_premio_eq_ok exDF3 "CIVIC" 2023 "M" "SP - Capital" "25-30" (by decide))

/-- C4: every successful estimate's frequency is the mean of the matched
record's cells in the claim-frequency-named columns (0 without such columns),
its severity the mean over the indemnity-named columns, each at the returned
precision; and the pre-adjustment premium is the matched record's historical
premium unless both means are strictly positive, in which case it is their
product. -/
theorem C4_frequencia_severidade_premio_base (df : DataFrame) (modelo : String) (ano : ℤ)
    (sexo regiao_desc faixa_desc : String) (r : Resultado)
    (h : calcular_premio df modelo ano sexo regiao_desc faixa_desc = .ok r) :
    r.frequencia
      = pyRound (listMean ((freqCols df).map
          (fun c => rowGet (registroSelecionado df modelo faixa_desc regiao_desc) c))) 6 ∧
    r.severidade
      = pyRound (listMean ((indenCols df).map
          (fun c => rowGet (registroSelecionado df modelo faixa_desc regiao_desc) c))) 2 ∧
    premioPuro df (registroSelecionado df modelo faixa_desc regiao_desc)
      = (if 0 < listMean ((freqCols df).map
              (fun c => rowGet (registroSelecionado df modelo faixa_desc regiao_desc) c))
            ∧ 0 < listMean ((indenCols df).map
              (fun c => rowGet (registroSelecionado df modelo faixa_desc regiao_desc) c))
         then listMean ((freqCols df).map
                (fun c => rowGet (registroSelecionado df modelo faixa_desc regiao_desc) c))
              * listMean ((indenCols df).map
                (fun c => rowGet (registroSelecionado df modelo faixa_desc regiao_desc) c))
         else rowGet (registroSelecionado df modelo faixa_desc regiao_desc) "premio1") := by
  unfold calcular_premio at h
  by_cases hm : (filtroModelo df modelo).isEmpty
  · simp [hm] at h
  · simp only [hm, Bool.false_eq_true, if_false, CalcResult.ok.injEq] at h
    subst h
    refine ⟨by simp [frequenciaMedia_eq], by simp [severidadeMedia_eq], ?_⟩
    rw [premioPuro, ← frequenciaMedia_eq, ← severidadeMedia_eq]

/-- C4 witness: a concrete successful query with one claim-frequency and one
indemnity column. -/
theorem C4_frequencia_severidade_premio_base_witness :
    resC4.frequencia
      = pyRound (listMean ((freqCols exDF3).map
          (fun c => rowGet (registroSelecionado exDF3 "CIVIC" "18-24" "Interior") c))) 6 :=
  (C4_frequencia_severidade_premio_base exDF3 "CIVIC" 2020 "F" "Interior" "18-24" resC4
    (calcular_premio_eq_ok exDF3 "CIVIC" 2020 "F" "Interior" "18-24" (by decide))).1

/-- C5: when the age-band (resp. region) restriction of a non-empty model
scope yields no rows, the estimator's surviving scope and matched record
equal those of the cascade with that criterion omitted entirely. -/
theorem C5_fallback_igual_omissao (df : DataFrame) (modelo faixa_desc regiao_desc : String)
    (ano : ℤ) (sexo : String) (hmod : filtroModelo df modelo ≠ []) :
    (((filtroModelo df modelo).filter (fun r => r.faixa_desc == faixa_desc) = [] →
       selecao df modelo faixa_desc regiao_desc = selecaoSemFaixa df modelo regiao_desc ∧
       (calcular_premio_atuarial df modelo ano sexo regiao_desc faixa_desc).registro_utilizado
         = selecaoSemFaixa df modelo regiao_desc ∧
       registroSelecionado df modelo faixa_desc regiao_desc
         = (selecaoSemFaixa df modelo regiao_desc).headD default) ∧
     ((faixaScope df modelo faixa_desc).filter (fun r => r.regiao_desc == regiao_desc) = [] →
       selecao df modelo faixa_desc regiao_desc = selecaoSemRegiao df modelo faixa_desc ∧
       registroSelecionado df modelo faixa_desc regiao_desc
         = (selecaoSemRegiao df modelo faixa_desc).headD default)) := by
  constructor
  · intro hf
    have hsel : selecao df modelo faixa_desc regiao_desc = selecaoSemFaixa df modelo regiao_desc := by
      unfold selecao faixaScope selecaoSemFaixa
      simp [hf]
    refine ⟨hsel, ?_, by unfold registroSelecionado; rw [hsel]⟩
    unfold calcular_premio_atuarial
    have hne : (filtroModelo df modelo).isEmpty = false := by
      cases hfm : filtroModelo df modelo with
      | nil => exact absurd hfm hmod
      | cons a l => simp [hfm]
    simp [hne, hsel]
  · intro hr
    have hsel : selecao df modelo faixa_desc regiao_desc = selecaoSemRegiao df modelo faixa_desc := by
      unfold selecao
      rw [show selecaoSemRegiao df modelo faixa_desc = faixaScope df modelo faixa_desc from rfl]
      simp [hr]
    exact ⟨hsel, by unfold registroSelecionado; rw [hsel]⟩

/-- C5 witness: a query whose age-band and region both fail to match, so both
restrictions are empty and both omission equalities hold concretely. -/
theorem C5_fallback_igual_omissao_witness :
    selecao exDF5 "GOL" "99" "ZZ" = selecaoSemFaixa exDF5 "GOL" "ZZ" ∧
    registroSelecionado exDF5 "GOL" "99" "ZZ" = (selecaoSemRegiao exDF5 "GOL" "99").headD default := by
  have h := C5_fallback_igual_omissao exDF5 "GOL" "99" "ZZ" 2020 "M" (by decide)
  exact ⟨(h.1 (by decide)).1, (h.2 (by decide)).2⟩

/-- C6: the combined view has exactly the sum of the input tables' row
counts — no row is duplicated or dropped, regardless of schema overlap; in
particular `combine [A, B]` has `|A| + |B|` rows. -/
theorem C6_contagem_de_linhas_combinadas (tables : List (String × DataFrame))
    (add_period_column : Bool) :
    (combine_tables tables add_period_column).rows.length
      = (tables.map (fun t => t.2.rows.length)).sum := by
  unfold combine_tables
  exact combineRowsAux_length add_period_column tables 0

/-- C7: the memoized combined-policy accessor degrades rather than fails:
a cached view is returned as-is; with no cache, a failing second-half load
yields the first half alone tagged as period 1 (and caches it); a failing
first-half load yields the empty result; and on success the combined view is
cached and a subsequent call returns exactly the cached view. -/
theorem C7_degradacao_e_memoizacao (st : DMState) :
    (∀ df, st.cascoCombined = some df → get_combined_casco_data st = (df, st)) ∧
    (st.cascoCombined = none →
      ((∀ d1 e2, st.loadSem1 = Except.ok d1 → st.loadSem2 = Except.error e2 →
          get_combined_casco_data st
            = (tagSem "1º Semestre 2019" 1 d1,
               { st with cascoCombined := some (tagSem "1º Semestre 2019" 1 d1) })) ∧
       (∀ e1, st.loadSem1 = Except.error e1 → get_combined_casco_data st = (emptyDF, st)) ∧
       (∀ d1 d2, st.loadSem1 = Except.ok d1 → st.loadSem2 = Except.ok d2 →
          (get_combined_casco_data st).2.cascoCombined = some (get_combined_casco_data st).1 ∧
          get_combined_casco_data ((get_combined_casco_data st).2)
            = ((get_combined_casco_data st).1, (get_combined_casco_data st).2)))) := by
  obtain ⟨l1, l2, cc⟩ := st
  constructor
  · intro df hdf
    cases cc with
    | none => cases hdf
    | some d => cases hdf; rfl
  · intro hcc
    cases cc with
    | some d => cases hcc
    | none =>
      refine ⟨?_, ?_, ?_⟩
      · intro d1 e2 h1 h2
        cases h1; cases h2; rfl
      · intro e1 h1
        cases h1
        cases l2 <;> rfl
      · intro d1 d2 h1 h2
        cases h1; cases h2
        exact ⟨rfl, rfl⟩

/-- C7 witness: a concrete fresh state whose second-half load fails returns
the tagged first half and caches it. -/
theorem C7_degradacao_e_memoizacao_witness :
    get_combined_casco_data ⟨Except.ok exDF7, Except.error "falha", none⟩
      = (tagSem "1º Semestre 2019" 1 exDF7,
         ⟨Except.ok exDF7, Except.error "falha", some (tagSem "1º Semestre 2019" 1 exDF7)⟩) :=
  ((C7_degradacao_e_memoizacao ⟨Except.ok exDF7, Except.error "falha", none⟩).2 rfl).1
    exDF7 "falha" rfl rfl

/-- C8 counterexample: for a concrete accident table holding one passenger
row (cause "Defeito Mecanico") and one driver row for the same brand, the
top-5 causes returned by the code differ from the top-5 causes computed only
over driver rows; the code's list contains a cause carried exclusively by a
non-driver row.  So the claim that all brand statistics are restricted to
driver rows is false. -/
theorem C8_counterexample :
    (get_accident_stats_by_brand exAcc8 "FIAT").causas_principais
        ≠ causasSomenteCondutor exAcc8 "FIAT" ∧
    ((get_accident_stats_by_brand exAcc8 "FIAT").causas_principais.map Prod.fst).contains
        "Defeito Mecanico" = true ∧
    (condutorRows exAcc8 "FIAT").all
        (fun r => !(r.causa_acidente == "Defeito Mecanico")) = true := by
  refine ⟨by decide, by decide, by decide⟩

/-- C8 amended: of the brand accident statistics, only the mean driver age
and the driver-sex distribution are computed over the rows whose
involved-party role is "Condutor"; the total and the top-5 causes, accident
types and states are computed over all rows matching the brand. -/
theorem C8_estatisticas_por_papel (acDF : List AccidentRow) (marca : String)
    (h : (get_accident_stats_by_brand acDF marca).encontrado = true) :
    (get_accident_stats_by_brand acDF marca).total_acidentes = (marcaRows acDF marca).length ∧
    (get_accident_stats_by_brand acDF marca).causas_principais
      = (valueCounts ((marcaRows acDF marca).map (fun r => r.causa_acidente))).take 5 ∧
    (get_accident_stats_by_brand acDF marca).tipos_acidentes
      = (valueCounts ((marcaRows acDF marca).map (fun r => r.tipo_acidente))).take 5 ∧
    (get_accident_stats_by_brand acDF marca).estados_maior_incidencia
      = (valueCounts ((marcaRows acDF marca).map (fun r => r.uf))).take 5 ∧
    (get_accident_stats_by_brand acDF marca).distribuicao_sexo
      = valueCounts ((condutorRows acDF marca).map (fun r => r.sexo)) ∧
    (get_accident_stats_by_brand acDF marca).idade_media_condutor
      = (if ((condutorRows acDF marca).filterMap (fun r => r.idade)).isEmpty then none
         else some (pyRound (((condutorRows acDF marca).filterMap (fun r => r.idade)).sum
                / ((condutorRows acDF marca).filterMap (fun r => r.idade)).length) 1)) := by
  unfold get_accident_stats_by_brand at h ⊢
  unfold marcaRows condutorRows marcaRows
  by_cases hm : (acDF.filter (fun r => containsStr (strUpper r.marca) (strUpper marca))).isEmpty
  · simp [hm] at h
  · simp [hm]

/-- C8 amended witness: the concrete table of the counterexample, where the
driver-sex distribution indeed ranges over the single driver row. -/
theorem C8_estatisticas_por_papel_witness :
    (get_accident_stats_by_brand exAcc8 "FIAT").distribuicao_sexo
      = valueCounts ((condutorRows exAcc8 "FIAT").map (fun r => r.sexo)) :=
  (C8_estatisticas_por_papel exAcc8 "FIAT" (by decide)).2.2.2.2.1

/-! ## Lemmas about the intent extractor -/

/-- The model loop only ever appends `"casco"` to the needed tables. -/
theorem detectModelos_tables (ml : String) :
    ∀ (ms : List String) (it : Intent),
      (∀ x ∈ it.tables_needed, x = "casco") →
      ∀ x ∈ (detectModelos ml ms it).tables_needed, x = "casco" := by
  intro ms
  induction ms with
  | nil => intro it h; simpa [detectModelos] using h
  | cons m ms ih =>
    intro it h
    simp only [detectModelos]
    split
    · apply ih
      intro x hx
      rcases List.mem_append.mp hx with h1 | h1
      · exact h x h1
      · simpa using h1
    · exact ih it h

/-- The model loop never touches the state entity. -/
theorem detectModelos_estado (ml : String) :
    ∀ (ms : List String) (it : Intent),
      (detectModelos ml ms it).estado_entidade = it.estado_entidade := by
  intro ms
  induction ms with
  | nil => intro it; rfl
  | cons m ms ih =>
    intro it
    simp only [detectModelos]
    split
    · rw [ih]
    · rw [ih]

/-- Whenever the model loop has recorded a model entity, it has also set
`needs_data` and marked the policy table as needed. -/
theorem detectModelos_entidade (ml : String) :
    ∀ (ms : List String) (it : Intent),
      (it.modelo_entidade ≠ none →
        it.needs_data = true ∧ it.tables_needed.contains "casco" = true) →
      ((detectModelos ml ms it).modelo_entidade ≠ none →
        (detectModelos ml ms it).needs_data = true ∧
        (detectModelos ml ms it).tables_needed.contains "casco" = true) := by
  intro ms
  induction ms with
  | nil => intro it h; simpa [detectModelos] using h
  | cons m ms ih =>
    intro it h
    simp only [detectModelos]
    split
    · apply ih
      intro _
      refine ⟨rfl, ?_⟩
      simp
    · exact ih it h

/-- Appending the policy-table tag preserves the all-"casco" invariant. -/
theorem tables_append_casco (l : List String) (h : ∀ x ∈ l, x = "casco") :
    ∀ x ∈ l ++ ["casco"], x = "casco" := by
  intro x hx
  rcases List.mem_append.mp hx with h1 | h1
  · exact h x h1
  · simpa using h1

/-- A list ending in `"casco"` contains `"casco"`. -/
theorem contains_casco_append (l : List String) : (l ++ ["casco"]).contains "casco" = true := by
  induction l with
  | nil => rfl
  | cons x xs ih => simp [List.contains_cons, ih]

/-- Every table the extracted intent marks as needed is the policy table. -/
theorem extract_intent_tables (modelos : List String) (msg : String) :
    ∀ x ∈ (extract_intent modelos msg).tables_needed, x = "casco" := by
  have h1 := detectModelos_tables (strLower msg) modelos
    { needs_data := false, tables_needed := [], query_type := "general" } (by simp)
  simp only [extract_intent]
  split <;> split <;> split <;>
    first
      | exact h1
      | exact tables_append_casco _ h1
      | exact tables_append_casco _ (tables_append_casco _ h1)

/-- The extracted intent never carries a state entity. -/
theorem extract_intent_estado (modelos : List String) (msg : String) :
    (extract_intent modelos msg).estado_entidade = none := by
  have h1 : (detectModelos (strLower msg) modelos
      { needs_data := false, tables_needed := [], query_type := "general" }).estado_entidade
        = none :=
    (detectModelos_estado (strLower msg) modelos
      { needs_data := false, tables_needed := [], query_type := "general" }).trans rfl
  simp only [extract_intent]
  split <;> split <;> split <;> exact h1

/-- When the extracted intent carries a model entity, it also needs data and
has the policy table marked as needed. -/
theorem extract_intent_entidade (modelos : List String) (msg : String) :
    (extract_intent modelos msg).modelo_entidade ≠ none →
    (extract_intent modelos msg).needs_data = true ∧
    (extract_intent modelos msg).tables_needed.contains "casco" = true := by
  have h1 := detectModelos_entidade (strLower msg) modelos
    { needs_data := false, tables_needed := [], query_type := "general" } (by simp)
  simp only [extract_intent]
  split <;> split <;> split <;>
    first
      | exact h1
      | exact fun hm => ⟨rfl, (h1 hm).2⟩
      | exact fun hm => ⟨rfl, contains_casco_append _⟩

/-- Shape of the retrieved bundle for any intent whose needed tables are all
the policy table and that carries no state entity. -/
theorem get_relevant_data_shape (sampler : List Row → ℕ → List Row) (combined : DataFrame)
    (acDF : List AccidentRow) (segDF : List CrimeRow) (it : Intent)
    (htab : ∀ x ∈ it.tables_needed, x = "casco")
    (hP : it.modelo_entidade ≠ none →
      it.needs_data = true ∧ it.tables_needed.contains "casco" = true) :
    (get_relevant_data sampler combined acDF segDF it).acidentes_info = none ∧
    (get_relevant_data sampler combined acDF segDF it).seguranca_info = none ∧
    (∀ m, it.modelo_entidade = some m →
      (get_relevant_data sampler combined acDF segDF it).casco_filtered
        = some (combined.rows.filter (fun r => r.modelo == m)) ∧
      (get_relevant_data sampler combined acDF segDF it).casco_sem1
        = some ((combined.rows.filter (fun r => r.modelo == m)).filter
            (fun r => r.semestre == some 1)) ∧
      (get_relevant_data sampler combined acDF segDF it).casco_sem2
        = some ((combined.rows.filter (fun r => r.modelo == m)).filter
            (fun r => r.semestre == some 2)) ∧
      (get_relevant_data sampler combined acDF segDF it).casco_sample = none) ∧
    ((get_relevant_data sampler combined acDF segDF it).casco_sample
        = some (sampler combined.rows (min 10 combined.rows.length)) ↔
      (it.modelo_entidade = none ∧ it.needs_data = true ∧
        it.tables_needed.contains "casco" = true)) ∧
    (it.modelo_entidade = none → it.tables_needed.contains "casco" = false →
      get_relevant_data sampler combined acDF segDF it = ({} : DataBundle)) := by
  have hacm : "acidentes" ∉ it.tables_needed := fun hmem => absurd (htab _ hmem) (by decide)
  have hsegm : "seguranca" ∉ it.tables_needed := fun hmem => absurd (htab _ hmem) (by decide)
  by_cases hn : it.needs_data
  · cases hm : it.modelo_entidade with
    | some m =>
      have hcm : "casco" ∈ it.tables_needed := by
        simpa using (hP (by simp [hm])).2
      have hsample : (get_relevant_data sampler combined acDF segDF it).casco_sample = none := by
        simp [get_relevant_data, hn, hm, hcm, hacm, hsegm]
      refine ⟨?_, ?_, ?_, ?_, ?_⟩
      · simp [get_relevant_data, hn, hm, hcm, hacm, hsegm]
      · simp [get_relevant_data, hn, hm, hcm, hacm, hsegm]
      · intro m2 hm2
        injection hm2 with hm3
        subst hm3
        refine ⟨?_, ?_, ?_, ?_⟩ <;> simp [get_relevant_data, hn, hm, hcm, hacm, hsegm]
      · constructor
        · intro hs
          rw [hsample] at hs
          cases hs
        · rintro ⟨hnone, -, -⟩
          cases hnone
      · intro hnone; cases hnone
    | none =>
      by_cases hc : "casco" ∈ it.tables_needed
      · have hct : it.tables_needed.contains "casco" = true := by simpa using hc
        refine ⟨?_, ?_, ?_, ?_, ?_⟩
        · simp [get_relevant_data, hn, hm, hc, hacm, hsegm]
        · simp [get_relevant_data, hn, hm, hc, hacm, hsegm]
        · intro m2 hm2; cases hm2
        · constructor
          · intro _
            exact ⟨rfl, hn, hct⟩
          · intro _
            simp [get_relevant_data, hn, hm, hc, hacm, hsegm]
        · intro _ hcf
          rw [hct] at hcf
          cases hcf
      · have hempty : get_relevant_data sampler combined acDF segDF it = ({} : DataBundle) := by
          simp [get_relevant_data, hn, hm, hc, hacm, hsegm]
        refine ⟨?_, ?_, ?_, ?_, ?_⟩
        · rw [hempty]
        · rw [hempty]
        · intro m2 hm2; cases hm2
        · constructor
          · intro hs
            rw [hempty] at hs
            cases hs
          · rintro ⟨-, -, hct⟩
            exact absurd (by simpa using hct : "casco" ∈ it.tables_needed) hc
        · intro _ _; exact hempty
  · have hn2 : it.needs_data = false := by simpa using hn
    have hempty : get_relevant_data sampler combined acDF segDF it = ({} : DataBundle) := by
      simp [get_relevant_data, hn2]
    refine ⟨?_, ?_, ?_, ?_, ?_⟩
    · rw [hempty]
    · rw [hempty]
    · intro m2 hm2
      exact absurd (hP (by simp [hm2])).1 (by simp [hn2])
    · constructor
      · intro hs
        rw [hempty] at hs
        cases hs
      · rintro ⟨-, htrue, -⟩
        exact absurd htrue (by simp [hn2])
    · intro _ _; exact hempty

/-! ## Claims C9 and C10 -/

/-- C9 counterexample: for a concrete message mentioning a known model whose
brand does appear in the accident table, the extractor records the model
entity, yet the retrieved bundle contains no accident statistics (the claim
promises them); and for a concrete message that needs data without a model
entity ("tive um acidente"), no sample is returned either (the claim
promises a sample whenever data is needed). -/
theorem C9_counterexample :
    (extract_intent ["CIVIC"] "meu civic").modelo_entidade = some "CIVIC" ∧
    (get_accident_stats_by_brand exAcc9 (extrairMarca "CIVIC")).encontrado = true ∧
    (get_relevant_data takeSampler exDF9 exAcc9 []
        (extract_intent ["CIVIC"] "meu civic")).acidentes_info = none ∧
    (extract_intent ["CIVIC"] "tive um acidente").needs_data = true ∧
    (extract_intent ["CIVIC"] "tive um acidente").modelo_entidade = none ∧
    (get_relevant_data takeSampler exDF9 exAcc9 []
        (extract_intent ["CIVIC"] "tive um acidente")).casco_sample = none := by
  refine ⟨by decide, by decide, by decide, by decide, by decide, by decide⟩

/-- C9 amended: for every intent produced by the intent extractor, the
retrieved bundle never contains accident or theft statistics (the extractor
never marks those tables as needed); when a model entity was detected the
bundle is exactly the matched-model slice of the combined view split into the
two half-year subsets (and no sample); a sample of the combined view is
returned exactly when no model entity was detected, data is needed and the
policy table was marked as needed; and when no model entity was detected and
the policy table was not marked, the whole bundle is empty (in particular a
claims-only query that needs data gets an empty bundle). -/
theorem C9_recuperacao_de_dados (modelos : List String) (msg : String)
    (sampler : List Row → ℕ → List Row) (combined : DataFrame)
    (acDF : List AccidentRow) (segDF : List CrimeRow) :
    (get_relevant_data sampler combined acDF segDF (extract_intent modelos msg)).acidentes_info
      = none ∧
    (get_relevant_data sampler combined acDF segDF (extract_intent modelos msg)).seguranca_info
      = none ∧
    (∀ m, (extract_intent modelos msg).modelo_entidade = some m →
      (get_relevant_data sampler combined acDF segDF (extract_intent modelos msg)).casco_filtered
        = some (combined.rows.filter (fun r => r.modelo == m)) ∧
      (get_relevant_data sampler combined acDF segDF (extract_intent modelos msg)).casco_sem1
        = some ((combined.rows.filter (fun r => r.modelo == m)).filter
            (fun r => r.semestre == some 1)) ∧
      (get_relevant_data sampler combined acDF segDF (extract_intent modelos msg)).casco_sem2
        = some ((combined.rows.filter (fun r => r.modelo == m)).filter
            (fun r => r.semestre == some 2)) ∧
      (get_relevant_data sampler combined acDF segDF (extract_intent modelos msg)).casco_sample
        = none) ∧
    ((get_relevant_data sampler combined acDF segDF (extract_intent modelos msg)).casco_sample
        = some (sampler combined.rows (min 10 combined.rows.length)) ↔
      ((extract_intent modelos msg).modelo_entidade = none ∧
        (extract_intent modelos msg).needs_data = true ∧
        (extract_intent modelos msg).tables_needed.contains "casco" = true)) ∧
    ((extract_intent modelos msg).modelo_entidade = none →
      (extract_intent modelos msg).tables_needed.contains "casco" = false →
      get_relevant_data sampler combined acDF segDF (extract_intent modelos msg)
        = ({} : DataBundle)) :=
  get_relevant_data_shape sampler combined acDF segDF (extract_intent modelos msg)
    (extract_intent_tables modelos msg) (extract_intent_entidade modelos msg)

/-- C9 amended witness: the concrete "meu civic" query yields exactly the
matched-model slice with its half-year split. -/
theorem C9_recuperacao_de_dados_witness :
    (get_relevant_data takeSampler exDF9 exAcc9 []
        (extract_intent ["CIVIC"] "meu civic")).casco_filtered
      = some (exDF9.rows.filter (fun r => r.modelo == "CIVIC")) :=
  ((C9_recuperacao_de_dados ["CIVIC"] "meu civic" takeSampler exDF9 exAcc9 []).2.2.1
    "CIVIC" (by decide)).1

/-- C10: the found/not-found outcome of the state theft-statistics query
depends only on the state-name match, evaluated before the optional year
filter; a state present in the crime table with no rows for the requested
year still yields a found result whose robbery and theft totals are 0. -/
theorem C10_encontrado_antes_do_ano (segDF : List CrimeRow) (estado : String) (y : ℤ)
    (hy : y ≠ 0) :
    ((get_theft_stats_by_state segDF estado (some y)).encontrado = true ↔
      segDF.filter (fun r => pyTitle (strTrim r.estado) == pyTitle (strTrim estado)) ≠ []) ∧
    (segDF.filter (fun r => pyTitle (strTrim r.estado) == pyTitle (strTrim estado)) ≠ [] →
      (segDF.filter (fun r => pyTitle (strTrim r.estado) == pyTitle (strTrim estado))).filter
          (fun r => r.ano == toString y) = [] →
      (get_theft_stats_by_state segDF estado (some y)).total_roubos = 0 ∧
      (get_theft_stats_by_state segDF estado (some y)).total_furtos = 0) := by
  have hA : anoTruthy (some y) = true := by simp [anoTruthy, hy]
  constructor
  · unfold get_theft_stats_by_state
    by_cases h : (segDF.filter
        (fun r => pyTitle (strTrim r.estado) == pyTitle (strTrim estado))).isEmpty
    · simp [h, List.isEmpty_iff.mp h]
    · simp only [h, Bool.false_eq_true, if_false]
      simp only [true_iff]
      exact fun hc => absurd (by simp [hc] : (segDF.filter
        (fun r => pyTitle (strTrim r.estado) == pyTitle (strTrim estado))).isEmpty = true) h
  · intro hne hyear
    unfold get_theft_stats_by_state
    have h : (segDF.filter
        (fun r => pyTitle (strTrim r.estado) == pyTitle (strTrim estado))).isEmpty = false := by
      cases hfm : segDF.filter (fun r => pyTitle (strTrim r.estado) == pyTitle (strTrim estado)) with
      | nil => exact absurd hfm hne
      | cons a l => simp [hfm]
    simp [h, hA, hyear]

/-- C10 witness: "pernambuco" is present in the concrete crime table but has
no 2019 rows, and the query still comes back found with zero totals. -/
theorem C10_encontrado_antes_do_ano_witness :
    (get_theft_stats_by_state exSeg10 "pernambuco" (some 2019)).encontrado = true ∧
    (get_theft_stats_by_state exSeg10 "pernambuco" (some 2019)).total_roubos = 0 ∧
    (get_theft_stats_by_state exSeg10 "pernambuco" (some 2019)).total_furtos = 0 := by
  have h := C10_encontrado_antes_do_ano exSeg10 "pernambuco" 2019 (by decide)
  exact ⟨h.1.mpr (by decide), (h.2 (by decide) (by decide)).1, (h.2 (by decide) (by decide)).2⟩

end Seguros
